import Mathlib

/- Verification of the engineering computation layer of the cable-dimension
   calculator repository: the Ohm's-law solver (pages/1_ohm_law_calculatory.py,
   calculate_ohms_law), the cable-sizing helpers and Cable Chooser flow
   (main.py), and the DC wire-selector helpers (pages/3_wire_selector.py).

   All float arithmetic of the source is embedded as exact arithmetic over a
   linear ordered field K; the definitions are generic in K so that they are
   computable at K = ℚ and can be instantiated at K = ℝ (with Real.sqrt for
   the square roots the source takes via math.sqrt / np.sqrt).  The float
   value float('inf') returned by get_current_rating is embedded as
   ⊤ : WithTop K, and a Python dict access that raises an uncaught KeyError
   (which get_current_rating does for every in-table cross-section, because
   the installation_methods keys lack the " (A)" infix of the table_data_1
   method keys) is embedded as none; multiplying an infinite rating by the
   (always strictly positive) derating factors is embedded as WithTop.map,
   matching IEEE semantics of inf * c = inf for c > 0. -/

section Embedding

variable {K : Type} [LinearOrderedField K] [DecidableEq K]
  [DecidableRel ((· < ·) : K → K → Prop)]
  [DecidableRel ((· ≤ ·) : K → K → Prop)]

/-- Conductor materials of the `materials` dict in main.py (keys of the
RESISTIVITY dict of pages/3_wire_selector.py are the same two metals). -/
inductive Material : Type
  | Copper : Material
  | Aluminum : Material
deriving DecidableEq

/-- Result record of calculate_ohms_law: the four entries of the `results`
dict (pages/1_ohm_law_calculatory.py, lines 101-117). -/
structure OhmResult (K : Type) where
  resistance : K
  current : K
  voltage : K
  power : K
deriving DecidableEq

/-- Number of strictly positive entries among the four inputs: the
`len(non_zero_inputs)` of pages/1_ohm_law_calculatory.py line 108. -/
def posCount (resistance current voltage power : K) : ℕ :=
  (if 0 < resistance then 1 else 0) + (if 0 < current then 1 else 0) +
    (if 0 < voltage then 1 else 0) + (if 0 < power then 1 else 0)

/-- calculate_ohms_law of pages/1_ohm_law_calculatory.py (lines 98-180).
The membership tests of the source ("resistance" in input_keys, etc.) are
embedded as the equivalent strict positivity tests; the `v_ln` temporaries of
the source are inlined.  `sqrt` stands for math.sqrt.  The branch chains have
the source's final fall-through behaviour: `results = dict(inputs)` is
returned unchanged when no branch fires. -/
def calculate_ohms_law (sqrt : K → K) (resistance current voltage power : K)
    (is_three_phase : Bool) : Except String (OhmResult K) :=
  if posCount resistance current voltage power < 2 then
    Except.error "Please enter at least two non-zero values"
  else if 2 < posCount resistance current voltage power then
    Except.error "Please enter exactly two values (set others to 0)"
  else if is_three_phase then
    if 0 < resistance ∧ 0 < voltage then
      -- v_ln = voltage / sqrt(3); current = v_ln / R; power = 3 v_ln² / R
      Except.ok ⟨resistance, voltage / sqrt 3 / resistance, voltage,
        3 * (voltage / sqrt 3) ^ 2 / resistance⟩
    else if 0 < resistance ∧ 0 < current then
      -- v_ln = I R; voltage = v_ln * sqrt(3); power = 3 I² R
      Except.ok ⟨resistance, current, current * resistance * sqrt 3,
        3 * current ^ 2 * resistance⟩
    else if 0 < resistance ∧ 0 < power then
      -- v_ln = sqrt(P R / 3); voltage = v_ln sqrt(3); current = v_ln / R
      Except.ok ⟨resistance, sqrt (power * resistance / 3) / resistance,
        sqrt (power * resistance / 3) * sqrt 3, power⟩
    else if 0 < voltage ∧ 0 < current then
      -- v_ln = V / sqrt(3); resistance = v_ln / I; power = sqrt(3) V I
      Except.ok ⟨voltage / sqrt 3 / current, current, voltage,
        sqrt 3 * voltage * current⟩
    else if 0 < voltage ∧ 0 < power then
      -- current = P / (sqrt(3) V); v_ln = V / sqrt(3); R = v_ln² 3 / P
      Except.ok ⟨(voltage / sqrt 3) ^ 2 * 3 / power,
        power / (sqrt 3 * voltage), voltage, power⟩
    else if 0 < current ∧ 0 < power then
      -- voltage = P / (sqrt(3) I); v_ln = voltage / sqrt(3); R = v_ln / I
      Except.ok ⟨power / (sqrt 3 * current) / sqrt 3 / current, current,
        power / (sqrt 3 * current), power⟩
    else Except.ok ⟨resistance, current, voltage, power⟩
  else
    if 0 < resistance ∧ 0 < voltage then
      Except.ok ⟨resistance, voltage / resistance, voltage,
        voltage ^ 2 / resistance⟩
    else if 0 < resistance ∧ 0 < current then
      Except.ok ⟨resistance, current, current * resistance,
        current ^ 2 * resistance⟩
    else if 0 < resistance ∧ 0 < power then
      Except.ok ⟨resistance, sqrt (power / resistance),
        sqrt (power * resistance), power⟩
    else if 0 < voltage ∧ 0 < current then
      Except.ok ⟨voltage / current, current, voltage, voltage * current⟩
    else if 0 < voltage ∧ 0 < power then
      Except.ok ⟨voltage ^ 2 / power, power / voltage, voltage, power⟩
    else if 0 < current ∧ 0 < power then
      Except.ok ⟨power / current ^ 2, current, power / current, power⟩
    else Except.ok ⟨resistance, current, voltage, power⟩

end Embedding

/-- C1: for every strictly positive resistance R and current I, solving with R
and I known (voltage and power supplied as 0) in single-phase/DC mode returns a
result whose voltage equals I*R and whose power equals I^2*R, with the two
known fields returned unchanged. -/
theorem C1_solve_RI_single_phase (sqrt : ℚ → ℚ) (R I : ℚ)
    (hR : 0 < R) (hI : 0 < I) :
    calculate_ohms_law sqrt R I 0 0 false = Except.ok ⟨R, I, I * R, I ^ 2 * R⟩ := by
  simp [calculate_ohms_law, posCount, hR, hI, lt_irrefl, hR.not_lt, hI.not_lt]

/-- Witness for C1 at sqrt = id, R = 2, I = 3. -/
theorem C1_solve_RI_single_phase_witness :
    calculate_ohms_law id (2 : ℚ) 3 0 0 false = Except.ok ⟨2, 3, 6, 18⟩ := by
  have h := C1_solve_RI_single_phase id 2 3 (by norm_num) (by norm_num)
  norm_num at h
  exact h

/-- C2: for every combination of the four inputs and either phase mode, the
solver returns an error (and no numeric result) if and only if the number of
strictly positive inputs is not exactly two; with exactly two strictly
positive inputs it returns a fully populated result record. -/
theorem C2_error_iff_not_two_knowns (sqrt : ℚ → ℚ) (r i v p : ℚ) (b : Bool) :
    (∃ e, calculate_ohms_law sqrt r i v p b = Except.error e) ↔
      posCount r i v p ≠ 2 := by
  unfold calculate_ohms_law
  by_cases h1 : posCount r i v p < 2
  · simp [h1]
    omega
  · by_cases h2 : 2 < posCount r i v p
    · simp [h1, h2]
      omega
    · have h3 : posCount r i v p = 2 := by omega
      simp only [if_neg h1, if_neg h2]
      constructor
      · rintro ⟨e, he⟩
        cases b <;> simp at he <;> split_ifs at he <;> simp at he
      · intro hne
        exact absurd h3 hne

/-- C3: solving with resistance 10 and voltage 400 known in three-phase mode
yields current (400/sqrt 3)/10 and power 3*(400/sqrt 3)^2/10, which equals
exactly 16000 W in real arithmetic; the known fields are returned unchanged.
(The solver takes no power-factor input, so power factor 1.0 is the only
behaviour; see the C4 theorems.) -/
theorem C3_three_phase_RV_concrete :
    calculate_ohms_law Real.sqrt 10 0 400 0 true =
      Except.ok ⟨10, 400 / Real.sqrt 3 / 10, 400,
        3 * (400 / Real.sqrt 3) ^ 2 / 10⟩ ∧
    3 * ((400 : ℝ) / Real.sqrt 3) ^ 2 / 10 = 16000 := by
  constructor
  · unfold calculate_ohms_law posCount
    norm_num
  · have h3 : Real.sqrt 3 ^ 2 = 3 := Real.sq_sqrt (by norm_num)
    rw [div_pow, h3]
    norm_num

/-- C4 counterexample: the solver computes three-phase power without any
power-factor term.  With voltage 400 and current 10 known and a configured
power factor of 0.8, the claim would require power sqrt(3)*400*10*0.8, but the
code computes sqrt(3)*400*10, a different real number. -/
theorem C4_power_factor_counterexample :
    (calculate_ohms_law Real.sqrt 0 10 400 0 true).map OhmResult.power =
      Except.ok (Real.sqrt 3 * 400 * 10) ∧
    Real.sqrt 3 * 400 * 10 ≠ Real.sqrt 3 * 400 * 10 * (4 / 5) := by
  constructor
  · unfold calculate_ohms_law posCount
    norm_num [Except.map]
  · have hx : 0 < Real.sqrt 3 := Real.sqrt_pos.mpr (by norm_num)
    intro h
    nlinarith [hx, h]

/-- C4 (amended): the solver has no power-factor parameter, so every
three-phase power it computes is at unity power factor: for known V and I the
power is sqrt(3)*V*I, for known R and I it is 3*I^2*R, for known R and V it is
3*(V/sqrt 3)^2/R; in single-phase/DC mode the plain relations R = V/I and
P = V*I apply. -/
theorem C4_power_unity_pf (V I R : ℝ) (hV : 0 < V) (hI : 0 < I) (hR : 0 < R) :
    (calculate_ohms_law Real.sqrt 0 I V 0 true).map OhmResult.power =
      Except.ok (Real.sqrt 3 * V * I) ∧
    (calculate_ohms_law Real.sqrt R I 0 0 true).map OhmResult.power =
      Except.ok (3 * I ^ 2 * R) ∧
    (calculate_ohms_law Real.sqrt R 0 V 0 true).map OhmResult.power =
      Except.ok (3 * (V / Real.sqrt 3) ^ 2 / R) ∧
    (calculate_ohms_law Real.sqrt 0 I V 0 false).map
        (fun res => (res.resistance, res.voltage, res.power)) =
      Except.ok (V / I, V, V * I) := by
  refine ⟨?_, ?_, ?_, ?_⟩ <;>
    simp [calculate_ohms_law, posCount, Except.map, hV, hI, hR, hV.not_lt,
      hI.not_lt, hR.not_lt]

/-- Witness for C4 (amended) at V = 400, I = 10, R = 5. -/
theorem C4_power_unity_pf_witness :
    (calculate_ohms_law Real.sqrt 0 10 400 0 true).map OhmResult.power =
      Except.ok (Real.sqrt 3 * 400 * 10) ∧
    (calculate_ohms_law Real.sqrt 5 10 0 0 true).map OhmResult.power =
      Except.ok (3 * 10 ^ 2 * 5) ∧
    (calculate_ohms_law Real.sqrt 5 0 400 0 true).map OhmResult.power =
      Except.ok (3 * (400 / Real.sqrt 3) ^ 2 / 5) ∧
    (calculate_ohms_law Real.sqrt 0 10 400 0 false).map
        (fun res => (res.resistance, res.voltage, res.power)) =
      Except.ok (400 / 10, 400, 400 * 10) :=
  C4_power_unity_pf 400 10 5 (by norm_num) (by norm_num) (by norm_num)

section CableSizer

variable {K : Type} [LinearOrderedField K] [DecidableEq K]
  [DecidableRel ((· < ·) : K → K → Prop)]
  [DecidableRel ((· ≤ ·) : K → K → Prop)]

/-- Material resistivity in Ohm*m: the `materials` dict of main.py line 50
(Copper 1.68e-8, Aluminum 2.82e-8). -/
def materials : Material → K
  | Material.Copper => 168 / 10 ^ 10
  | Material.Aluminum => 282 / 10 ^ 10

/-- Standard cable sizes in mm^2: `cable_sizes_mm2` of main.py line 51. -/
def cable_sizes_mm2 : List K :=
  [3 / 2, 5 / 2, 4, 6, 10, 16, 25, 35, 50, 70, 95, 120, 150, 185, 240]

/-- Cross-sections known to the current-rating table: the
"Cross-sectional area (mm²)" column of `table_data_1` (main.py line 12). -/
def crossSections : List K := [1, 3 / 2, 5 / 2, 4, 6, 10, 16]

/-- The string-keyed `table_data_1` dict of main.py lines 11-21, as an
association list column-name -> column.  Note every method key carries an
" (A)" infix. -/
def table_data_1 : List (String × List K) :=
  [("Cross-sectional area (mm²)", [1, 3 / 2, 5 / 2, 4, 6, 10, 16]),
   ("Method 100# (A) (above a plasterboard ceiling)",
     [13, 16, 21, 27, 34, 45, 57]),
   ("Method 101# (A) (above a plasterboard ceiling, exceeding 100mm)",
     [21 / 2, 13, 17, 22, 27, 36, 46]),
   ("Method 102# (A) (in a stud wall with thermal insulation)",
     [13, 15, 20, 26, 32, 42, 53]),
   ("Method 103# (A) (in a stud wall with cable touching inner wall)",
     [8, 10, 27 / 2, 35 / 2, 23, 30, 38]),
   ("Method A* (A) (enclosed in conduit)",
     [23 / 2, 14, 18, 23, 29, 38, 47]),
   ("Method B* (A) (enclosed in conduit on a wall)",
     [13, 33 / 2, 21, 27, 35, 46, 58]),
   ("Method C* (A) (clipped direct)",
     [16, 20, 27, 35, 47, 64, 85]),
   ("Voltage drop (mV/A/m)", [44, 29, 18, 11, 73 / 10, 22 / 5, 14 / 5])]

/-- The keys of the `installation_methods` dict of main.py lines 52-60.
None of them carries the " (A)" infix of the `table_data_1` method keys, so
indexing `table_data_1` with them (main.py line 95) raises KeyError. -/
def installation_methods_keys : List String :=
  ["Method 100# (above a plasterboard ceiling)",
   "Method 101# (above a plasterboard ceiling, exceeding 100mm)",
   "Method 102# (in a stud wall with thermal insulation)",
   "Method 103# (in a stud wall with cable touching inner wall)",
   "Method A* (enclosed in conduit)",
   "Method B* (enclosed in conduit on a wall)",
   "Method C* (clipped direct)"]

/-- The list comprehension of main.py line 95, `[table_data_1[key] ... for
key in method_keys]`: a Python dict access that misses raises KeyError,
embedded as none, and a single miss fails the whole comprehension. -/
def lookupAll {α β : Type} [BEq α] (table : List (α × β)) :
    List α → Option (List β)
  | [] => some []
  | k :: ks =>
    match table.lookup k with
    | none => none
    | some v =>
      match lookupAll table ks with
      | none => none
      | some vs => some (v :: vs)

/-- `core_factors` dict of get_current_rating (main.py line 99) with the
`.get(num_cores, 1.00)` default of line 100. -/
def core_factors (num_cores : ℕ) : K :=
  if num_cores = 2 then 1
  else if num_cores = 3 then 1
  else if num_cores = 5 then 3 / 4
  else if num_cores = 7 then 13 / 20
  else if num_cores = 10 then 11 / 20
  else if num_cores = 14 then 1 / 2
  else if num_cores = 24 then 2 / 5
  else 1

/-- `temp_factors_80C` dict of the Cable Chooser (main.py line 162) with the
`.get(ambient_temp, 1.00)` default of line 164. -/
def temp_factors_80C (ambient_temp : ℕ) : K :=
  if ambient_temp = 30 then 1
  else if ambient_temp = 40 then 89 / 100
  else if ambient_temp = 50 then 77 / 100
  else if ambient_temp = 60 then 63 / 100
  else 1

/-- `core_factors_open_air` dict of the Cable Chooser (main.py line 163) with
the `.get(num_cores, 1.00)` default of line 165. -/
def core_factors_open_air (num_cores : ℕ) : K :=
  if num_cores = 2 then 1
  else if num_cores = 3 then 1
  else if num_cores = 5 then 3 / 4
  else if num_cores = 7 then 13 / 20
  else if num_cores = 10 then 11 / 20
  else if num_cores = 14 then 1 / 2
  else if num_cores = 24 then 2 / 5
  else 1

/-- calculate_resistance of main.py lines 69-73. -/
def calculate_resistance (length cross_section : K) (material : Material) : K :=
  materials material * length / (cross_section * (1 / 10 ^ 6))

/-- calculate_voltage_drop of main.py lines 75-79; `sqrt3` stands for the
float np.sqrt(3). -/
def calculate_voltage_drop (sqrt3 current resistance : K)
    (is_three_phase : Bool) (power_factor : K) : K :=
  if is_three_phase then sqrt3 * current * resistance * power_factor
  else current * resistance

/-- calculate_required_area of main.py lines 81-88; `sqrt3` stands for the
float np.sqrt(3). -/
def calculate_required_area (sqrt3 voltage_drop current length : K)
    (material : Material) (is_three_phase : Bool) (power_factor : K) : K :=
  if is_three_phase then
    sqrt3 * materials material * current * length * power_factor /
      (voltage_drop * (1 / 10 ^ 6))
  else
    2 * materials material * current * length / (voltage_drop * (1 / 10 ^ 6))

/-- get_current_rating of main.py lines 90-101.  The float('inf') returned
for a cross-section that is not in the table is embedded as some ⊤; an
uncaught KeyError is embedded as none.  Because the `installation_methods`
keys used by the line-95 comprehension do not occur in `table_data_1`
(they lack the " (A)" infix), the comprehension raises KeyError for every
in-table cross-section: only the sentinel branch can return. -/
def get_current_rating (cross_section : K) (num_cores : ℕ)
    (installation_method_idx : Fin 7) : Option (WithTop K) :=
  if cross_section ∉ (crossSections : List K) then some ⊤
  else
    match lookupAll (table_data_1 : List (String × List K))
        installation_methods_keys with
    | none => none
    | some cols =>
      some (((cols.map (fun col =>
          col.getD ((crossSections : List K).indexOf cross_section) 0)).getD
            installation_method_idx 0 * core_factors num_cores : K))

/-- The Cable Chooser warning test of main.py line 200:
`adjusted_current > adjusted_rating`, where the rating may be infinite. -/
def ratingWarning (adjusted_current : K) (adjusted_rating : WithTop K) : Bool :=
  decide (adjusted_rating < (adjusted_current : WithTop K))

/-- The three ways a Cable Chooser run can fail to produce a result:
the st.error of main.py line 171 ("All inputs must be greater than 0."),
the st.error of line 243 ("No suitable cable size found. ..."), and the
uncaught KeyError raised inside get_current_rating (line 95) that crashes
the flow at line 191 before any rating, comparison or warning exists. -/
inductive ChooserFailure : Type
  | invalidInput : ChooserFailure
  | noSuitableCable : ChooserFailure
  | keyError : ChooserFailure
deriving DecidableEq

/-- Values the Cable Chooser computes and displays for a successful run
(main.py lines 174-201). -/
structure ChooserResult (K : Type) where
  adjusted_current : K
  required_area : K
  recommended_size : K
  resistance : K
  actual_voltage_drop : K
  base_rating : WithTop K
  adjusted_rating : WithTop K
  warning : Bool
deriving DecidableEq

/-- The size recommendation of main.py lines 181-185: filter the catalog
down to `suitable_cables` (sizes at least the required area, computed from
the *unadjusted* current) and take its minimum; none when the filtered list
is empty (the source's error path). -/
def recommendCable (sqrt3 current length max_voltage_drop : K)
    (material : Material) (is_three_phase : Bool) (power_factor : K) :
    Option K :=
  (cable_sizes_mm2.filter
    (fun s => decide (calculate_required_area sqrt3 max_voltage_drop current
      length material is_three_phase power_factor ≤ s))).min?

/-- The Cable Chooser flow of main.py lines 169-206: validate inputs, derate
the current, compute the required area from the *unadjusted* current, pick the
smallest suitable standard size (min over the filtered catalog, as the source's
`min(suitable_cables)`), then compute resistance, actual voltage drop and the
derated rating for that size.  `sqrt3` stands for np.sqrt(3).  A KeyError
inside get_current_rating (main.py line 191 calling line 95) aborts the run
with no result.  Multiplying the possibly infinite base rating by the
strictly positive derating factors is embedded as WithTop.map. -/
def chooseCable (sqrt3 current length max_voltage_drop : K)
    (material : Material) (ambient_temp num_cores : ℕ)
    (installation_method_idx : Fin 7) (is_three_phase : Bool)
    (power_factor : K) : Except ChooserFailure (ChooserResult K) :=
  if current ≤ 0 ∨ length ≤ 0 ∨ max_voltage_drop ≤ 0 then
    Except.error ChooserFailure.invalidInput
  else
    let temp_factor : K := temp_factors_80C ambient_temp
    let core_factor : K := core_factors_open_air num_cores
    let adjusted_current := current / (temp_factor * core_factor)
    let required_area := calculate_required_area sqrt3 max_voltage_drop
      current length material is_three_phase power_factor
    match recommendCable sqrt3 current length max_voltage_drop material
        is_three_phase power_factor with
    | none => Except.error ChooserFailure.noSuitableCable
    | some recommended_size =>
        let resistance := calculate_resistance length recommended_size material
        let actual_voltage_drop := calculate_voltage_drop sqrt3 current
          resistance is_three_phase power_factor
        match get_current_rating recommended_size num_cores
            installation_method_idx with
        | none => Except.error ChooserFailure.keyError
        | some base_rating =>
            let adjusted_rating := base_rating.map
              (fun b => b * temp_factor * core_factor)
            Except.ok ⟨adjusted_current, required_area, recommended_size,
              resistance, actual_voltage_drop, base_rating, adjusted_rating,
              ratingWarning adjusted_current adjusted_rating⟩

end CableSizer

/-- C5 counterexample: requiredArea(maxVoltageDrop=5, current=10, length=100,
Copper, single-phase) evaluates to 6.72 mm^2, not to the 67.2 mm^2 the claim
states: 2*1.68e-8*10*100/(5*1e-6) = 6.72. -/
theorem C5_area_value_counterexample :
    calculate_required_area (0 : ℚ) 5 10 100 Material.Copper false (4 / 5) =
      6.72 ∧ (6.72 : ℚ) ≠ 67.2 := by
  constructor
  · norm_num [calculate_required_area, materials]
  · norm_num

/-- C5 (amended): for strictly positive maxVoltageDrop, current and length,
the required area in single-phase/DC mode equals
2*rho(material)*current*length/(maxVoltageDrop*1e-6) mm^2, and
sqrt(3)*rho*current*length*powerFactor/(maxVoltageDrop*1e-6) in three-phase
mode; in particular requiredArea(5.0, 10.0, 100, Copper, single-phase) =
2*1.68e-8*10*100/(5*1e-6) = 6.72 mm^2. -/
theorem C5_required_area_formula (vd I L pf : ℝ) (m : Material)
    (hvd : 0 < vd) (hI : 0 < I) (hL : 0 < L) :
    calculate_required_area (Real.sqrt 3) vd I L m false pf =
      2 * materials m * I * L / (vd * (1 / 10 ^ 6)) ∧
    calculate_required_area (Real.sqrt 3) vd I L m true pf =
      Real.sqrt 3 * materials m * I * L * pf / (vd * (1 / 10 ^ 6)) ∧
    calculate_required_area (Real.sqrt 3) 5 10 100 Material.Copper false pf =
      6.72 := by
  refine ⟨rfl, rfl, ?_⟩
  norm_num [calculate_required_area, materials]

/-- Witness for C5 (amended) at vd = 5, I = 10, L = 100, pf = 4/5, Copper. -/
theorem C5_required_area_formula_witness :
    calculate_required_area (Real.sqrt 3) 5 10 100 Material.Copper false
        (4 / 5) =
      2 * materials Material.Copper * 10 * 100 / (5 * (1 / 10 ^ 6)) ∧
    calculate_required_area (Real.sqrt 3) 5 10 100 Material.Copper true
        (4 / 5) =
      Real.sqrt 3 * materials Material.Copper * 10 * 100 * (4 / 5) /
        (5 * (1 / 10 ^ 6)) ∧
    calculate_required_area (Real.sqrt 3) 5 10 100 Material.Copper false
        (4 / 5) = 6.72 :=
  C5_required_area_formula 5 10 100 (4 / 5) Material.Copper (by norm_num)
    (by norm_num) (by norm_num)

section WireSelector

variable {K : Type} [LinearOrderedField K] [DecidableEq K]
  [DecidableRel ((· < ·) : K → K → Prop)]
  [DecidableRel ((· ≤ ·) : K → K → Prop)]

/-- METRIC_STEPS of pages/3_wire_selector.py line 28: the purchasable metric
sizes in mm^2, ascending. -/
def METRIC_STEPS : List K :=
  [1 / 2, 3 / 4, 1, 3 / 2, 5 / 2, 4, 6, 10, 16, 25, 35, 50, 70, 95, 120, 150,
    185, 240, 300, 400]

/-- The scanning loop of pick_metric_size (pages/3_wire_selector.py lines
83-85): return the first list entry that is at least area_req, none if the
loop falls through. -/
def pick_loop (area_req : K) : List K → Option K
  | [] => none
  | s :: rest => if area_req ≤ s then some s else pick_loop area_req rest

/-- pick_metric_size of pages/3_wire_selector.py lines 82-86: first metric
step at least area_req, defaulting to the last catalog entry. -/
def pick_metric_size (area_req : K) : K :=
  match pick_loop area_req (METRIC_STEPS : List K) with
  | some s => s
  | none => (METRIC_STEPS : List K).getLastD 0

/-- pick_awg of pages/3_wire_selector.py lines 88-94: filter the (ascending)
AWG table down to rows with area at least area_req and take the first row;
if no row qualifies, return the "≥ 4/0" label with the last row's area.
The table is a parameter: the source builds AWG_TABLE from the float formula
0.005*92^((36-g)/39) (an irrational real power), sorted ascending by area. -/
def pick_awg (table : List (String × K)) (area_req : K) : String × K :=
  match table.filter (fun row => decide (area_req ≤ row.2)) with
  | [] => ("≥ 4/0", (table.getLastD ("", 0)).2)
  | row :: _ => row

/-- RESISTIVITY dict of pages/3_wire_selector.py lines 16-19, in Ohm*mm^2/m
(Copper 0.0175, Aluminum 0.0282). -/
def RESISTIVITY : Material → K
  | Material.Copper => 175 / 10 ^ 4
  | Material.Aluminum => 282 / 10 ^ 4

/-- TEMP_COEFF dict of pages/3_wire_selector.py lines 22-25
(Copper 0.00393, Aluminum 0.00403 per degree C). -/
def TEMP_COEFF : Material → K
  | Material.Copper => 393 / 10 ^ 5
  | Material.Aluminum => 403 / 10 ^ 5

/-- resistivity_at_temp of pages/3_wire_selector.py lines 30-34. -/
def resistivity_at_temp (material : Material) (temp_c : K) : K :=
  RESISTIVITY material * (1 + TEMP_COEFF material * (temp_c - 20))

/-- loop_len_m of pages/3_wire_selector.py line 126: out plus return. -/
def loop_len_m (one_way_len_m : K) : K := 2 * one_way_len_m

/-- A_eff_metric of pages/3_wire_selector.py line 140: effective area per
leg for n_parallel parallel conductors of the recommended size. -/
def A_eff_metric (metric_reco : K) (n_parallel : ℕ) : K :=
  metric_reco * (n_parallel : K)

/-- R_loop_metric of pages/3_wire_selector.py line 141, with the source's
max(A_eff, 1e-12) guard against a zero denominator. -/
def R_loop_metric (material : Material) (temp_c one_way_len_m metric_reco : K)
    (n_parallel : ℕ) : K :=
  resistivity_at_temp material temp_c * loop_len_m one_way_len_m /
    max (A_eff_metric metric_reco n_parallel) (1 / 10 ^ 12)

end WireSelector

/-- Helper: on a list sorted ascending, the scanning loop returns a first
element at least a, which is a lower bound for every sufficient element. -/
theorem pick_loop_spec {a : ℚ} :
    ∀ {l : List ℚ}, l.Sorted (· ≤ ·) → ∀ {s : ℚ}, s ∈ l → a ≤ s →
      ∃ r, pick_loop a l = some r ∧ r ∈ l ∧ a ≤ r ∧ r ≤ s := by
  intro l
  induction l with
  | nil => intro _ s hs; simp at hs
  | cons x xs ih =>
    intro hsort s hs ha
    by_cases hax : a ≤ x
    · refine ⟨x, by simp [pick_loop, hax], List.mem_cons_self x xs, hax, ?_⟩
      rcases List.mem_cons.mp hs with rfl | hs'
      · exact le_refl s
      · exact List.rel_of_sorted_cons hsort s hs'
    · have hs' : s ∈ xs := by
        rcases List.mem_cons.mp hs with rfl | h
        · exact absurd ha hax
        · exact h
      obtain ⟨r, hr, hrmem, har, hrs⟩ := ih hsort.of_cons hs' ha
      exact ⟨r, by simp [pick_loop, hax, hr], List.mem_cons_of_mem x hrmem,
        har, hrs⟩

/-- Helper: when no element suffices, the scanning loop falls through. -/
theorem pick_loop_none {a : ℚ} :
    ∀ {l : List ℚ}, (∀ s ∈ l, s < a) → pick_loop a l = none := by
  intro l
  induction l with
  | nil => intro _; rfl
  | cons x xs ih =>
    intro h
    have hx : ¬a ≤ x := not_le.mpr (h x (List.mem_cons_self x xs))
    simp [pick_loop, hx]
    exact ih fun s hs => h s (List.mem_cons_of_mem x hs)

/-- Helper: on a table sorted ascending by area, the filtered table's head is
a first row with area at least a, bounded by every sufficient row. -/
theorem filter_first_ge_spec {a : ℚ} :
    ∀ {l : List (String × ℚ)}, (l.map Prod.snd).Sorted (· ≤ ·) →
      ∀ {row : String × ℚ}, row ∈ l → a ≤ row.2 →
      ∃ r t, l.filter (fun x => decide (a ≤ x.2)) = r :: t ∧ r ∈ l ∧
        a ≤ r.2 ∧ r.2 ≤ row.2 := by
  intro l
  induction l with
  | nil => intro _ row hrow; simp at hrow
  | cons x xs ih =>
    intro hsort row hrow ha
    by_cases hax : a ≤ x.2
    · refine ⟨x, xs.filter (fun y => decide (a ≤ y.2)),
        by simp [List.filter_cons, hax], List.mem_cons_self x xs, hax, ?_⟩
      rcases List.mem_cons.mp hrow with rfl | hrow'
      · exact le_refl row.2
      · exact List.rel_of_sorted_cons hsort row.2
          (List.mem_map_of_mem Prod.snd hrow')
    · have hrow' : row ∈ xs := by
        rcases List.mem_cons.mp hrow with rfl | h
        · exact absurd ha hax
        · exact h
      obtain ⟨r, t, hrt, hrmem, har, hrr⟩ := ih hsort.of_cons hrow' ha
      exact ⟨r, t, by simp [List.filter_cons, hax, hrt],
        List.mem_cons_of_mem x hrmem, har, hrr⟩

/-- Helper: when no row's area suffices, the filtered table is empty. -/
theorem filter_first_ge_none {a : ℚ} {l : List (String × ℚ)}
    (h : ∀ row ∈ l, row.2 < a) :
    l.filter (fun x => decide (a ≤ x.2)) = [] := by
  rw [List.filter_eq_nil_iff]
  intro x hx
  simp [not_le.mpr (h x hx)]

/-- C6: standard-size selection returns the smallest catalog entry at least
the required area (scanning the ascending metric catalog, or an ascending
AWG-style table); if no entry is large enough, it returns the catalog's
largest entry as a usable answer.  In particular the metric selection at
required area 3.2 returns 4. -/
theorem C6_pick_standard_size :
    (∀ a s : ℚ, s ∈ (METRIC_STEPS : List ℚ) → a ≤ s →
      pick_metric_size a ∈ (METRIC_STEPS : List ℚ) ∧ a ≤ pick_metric_size a ∧
        pick_metric_size a ≤ s) ∧
    (∀ a : ℚ, (∀ s ∈ (METRIC_STEPS : List ℚ), s < a) →
      pick_metric_size a = 400) ∧
    pick_metric_size (3.2 : ℚ) = 4 ∧
    (∀ (table : List (String × ℚ)) (a : ℚ),
      (table.map Prod.snd).Sorted (· ≤ ·) →
      (∀ row ∈ table, a ≤ row.2 →
        pick_awg table a ∈ table ∧ a ≤ (pick_awg table a).2 ∧
          (pick_awg table a).2 ≤ row.2) ∧
      ((∀ row ∈ table, row.2 < a) →
        pick_awg table a = ("≥ 4/0", (table.getLastD ("", 0)).2))) := by
  have hsorted : (METRIC_STEPS : List ℚ).Sorted (· ≤ ·) := by
    simp [METRIC_STEPS, List.sorted_cons]
    norm_num
  refine ⟨?_, ?_, ?_, ?_⟩
  · intro a s hs ha
    obtain ⟨r, hr, hrmem, har, hrs⟩ := pick_loop_spec hsorted hs ha
    unfold pick_metric_size
    rw [hr]
    exact ⟨hrmem, har, hrs⟩
  · intro a h
    unfold pick_metric_size
    rw [pick_loop_none h]
    rfl
  · have h32 : (3.2 : ℚ) = 16 / 5 := by norm_num
    rw [h32]
    norm_num [pick_metric_size, pick_loop, METRIC_STEPS]
  · intro table a hsort
    constructor
    · intro row hrow ha
      obtain ⟨r, t, hrt, hrmem, har, hrr⟩ := filter_first_ge_spec hsort hrow ha
      unfold pick_awg
      rw [hrt]
      exact ⟨hrmem, har, hrr⟩
    · intro h
      unfold pick_awg
      rw [filter_first_ge_none h]

/-- Witness for C6: the metric selection at 3.2 returns 4 (the smallest entry
at least 3.2, which is itself at least 3.2 and at most the sufficient entry
4); at 500 (larger than every entry) it clamps to 400; and on a concrete
three-row ascending table, AWG selection at 5/2 returns a row of area at
least 5/2 and clamps to the last area at 100. -/
theorem C6_pick_standard_size_witness :
    pick_metric_size (3.2 : ℚ) = 4 ∧
    ((3.2 : ℚ) ≤ pick_metric_size (3.2 : ℚ) ∧ pick_metric_size (3.2 : ℚ) ≤ 4) ∧
    pick_metric_size (500 : ℚ) = 400 ∧
    ((5 / 2 : ℚ) ≤ (pick_awg [("14 AWG", 2), ("12 AWG", 21 / 10),
        ("10 AWG", 5)] (5 / 2)).2) ∧
    pick_awg [("14 AWG", (2 : ℚ)), ("12 AWG", 21 / 10), ("10 AWG", 5)] 100 =
      ("≥ 4/0", 5) := by
  obtain ⟨h1, h2, h3, h4⟩ := C6_pick_standard_size
  refine ⟨h3, ?_, ?_, ?_, ?_⟩
  · have := h1 (3.2 : ℚ) 4 (by norm_num [METRIC_STEPS]) (by norm_num)
    exact ⟨this.2.1, this.2.2⟩
  · refine h2 500 ?_
    intro s hs
    simp [METRIC_STEPS] at hs
    rcases hs with h | h | h | h | h | h | h | h | h | h | h | h | h | h | h |
      h | h | h | h | h <;> rw [h] <;> norm_num
  · have hsort : (([("14 AWG", (2 : ℚ)), ("12 AWG", 21 / 10),
        ("10 AWG", 5)].map Prod.snd).Sorted (· ≤ ·)) := by
      simp [List.sorted_cons]
      norm_num
    have := ((h4 _ (5 / 2) hsort).1 ("10 AWG", 5) (by simp) (by norm_num)).2.1
    exact this
  · have hsort : (([("14 AWG", (2 : ℚ)), ("12 AWG", 21 / 10),
        ("10 AWG", 5)].map Prod.snd).Sorted (· ≤ ·)) := by
      simp [List.sorted_cons]
      norm_num
    have := (h4 _ (100 : ℚ) hsort).2 ?_
    · simpa using this
    · intro row hrow
      simp at hrow
      rcases hrow with h | h | h <;> rw [h] <;> norm_num

/-- C9: the temperature-corrected resistivity of the wire selector equals
rho20*(1 + alpha*(T-20)) (in Ohm*mm^2/m), and the loop resistance reported
for a chosen metric conductor of area A with n parallel conductors per leg
and one-way length L equals rho(T)*(2*L)/(n*A). -/
theorem C9_resistivity_and_loop_resistance (m : Material) (t L A : ℚ) (n : ℕ)
    (hA : A ∈ (METRIC_STEPS : List ℚ)) (hn : 1 ≤ n) :
    resistivity_at_temp m t = RESISTIVITY m * (1 + TEMP_COEFF m * (t - 20)) ∧
    R_loop_metric m t L A n = resistivity_at_temp m t * (2 * L) /
      ((n : ℚ) * A) := by
  constructor
  · rfl
  · have hA2 : (1 / 2 : ℚ) ≤ A := by
      simp [METRIC_STEPS] at hA
      rcases hA with h | h | h | h | h | h | h | h | h | h | h | h | h | h |
        h | h | h | h | h | h <;> rw [h] <;> norm_num
    have hn1 : (1 : ℚ) ≤ (n : ℚ) := by exact_mod_cast hn
    have hmax : max (A_eff_metric A n) (1 / 10 ^ 12 : ℚ) =
        A * (n : ℚ) := by
      apply max_eq_left
      unfold A_eff_metric
      nlinarith [hA2, hn1]
    unfold R_loop_metric loop_len_m
    rw [hmax]
    ring

/-- Witness for C9 at Copper, T = 30, L = 10, A = 5/2, n = 1. -/
theorem C9_resistivity_and_loop_resistance_witness :
    resistivity_at_temp Material.Copper (30 : ℚ) =
      RESISTIVITY Material.Copper *
        (1 + TEMP_COEFF Material.Copper * (30 - 20)) ∧
    R_loop_metric Material.Copper (30 : ℚ) 10 (5 / 2) 1 =
      resistivity_at_temp Material.Copper 30 * (2 * 10) /
        ((1 : ℚ) * (5 / 2)) := by
  have h := C9_resistivity_and_loop_resistance Material.Copper 30 10 (5 / 2) 1
    (by norm_num [METRIC_STEPS]) (by norm_num)
  simpa using h

/-- C7: for every cross-section outside the current-rating table's known
entries, every core count and every installation method, get_current_rating
returns the always-sufficient infinite sentinel, and the Cable Chooser's
comparison of any required (adjusted) current against the derated sentinel
never raises the rating warning. -/
theorem C7_unknown_cross_section_sentinel (cs : ℚ)
    (h : cs ∉ (crossSections : List ℚ)) (n : ℕ) (idx : Fin 7)
    (I tf cf : ℚ) :
    get_current_rating cs n idx = some ⊤ ∧
    ∀ b : WithTop ℚ, get_current_rating cs n idx = some b →
      ratingWarning I (b.map (fun x => x * tf * cf)) = false := by
  have htop : get_current_rating cs n idx = some ⊤ := by
    unfold get_current_rating
    rw [if_pos h]
  refine ⟨htop, ?_⟩
  intro b hb
  rw [htop] at hb
  obtain rfl : (⊤ : WithTop ℚ) = b := by
    simpa using hb
  simp [ratingWarning, WithTop.map_top, not_top_lt]

/-- Witness for C7 at cross-section 20 (not in the table), 5 cores, method
index 0, adjusted current 1000000, factors 0.89 and 0.75. -/
theorem C7_unknown_cross_section_sentinel_witness :
    ((20 : ℚ) ∉ (crossSections : List ℚ)) ∧
    get_current_rating (20 : ℚ) 5 0 = some ⊤ ∧
    ratingWarning (1000000 : ℚ) ((⊤ : WithTop ℚ).map
      (fun x => x * (89 / 100) * (3 / 4))) = false := by
  have h20 : (20 : ℚ) ∉ (crossSections : List ℚ) := by
    norm_num [crossSections]
  have h := C7_unknown_cross_section_sentinel 20 h20 5 0 1000000
    (89 / 100) (3 / 4)
  exact ⟨h20, h.1, h.2 ⊤ h.1⟩

/-- C8 (code bug): the Cable Chooser never reaches the derated-rating
comparison the claim describes for any recommended size that the rating
table knows.  At current 10 A, length 100 m, allowed drop 40 V, copper,
ambient 30, 3 cores, method index 0, single phase, the required area is
0.84 mm^2 and the recommended size 1.5 mm^2 is an in-table cross-section;
get_current_rating then raises KeyError (the installation_methods keys lack
the " (A)" infix of the table_data_1 method keys, main.py line 95) and the
run aborts with no rating, no comparison and no warning. -/
theorem C8_keyerror_on_rated_sizes :
    recommendCable (0 : ℚ) 10 100 40 Material.Copper false (4 / 5) =
      some (3 / 2) ∧
    (3 / 2 : ℚ) ∈ (crossSections : List ℚ) ∧
    get_current_rating (3 / 2 : ℚ) 3 0 = none ∧
    chooseCable (0 : ℚ) 10 100 40 Material.Copper 30 3 0 false (4 / 5) =
      Except.error ChooserFailure.keyError := by
  have harea : calculate_required_area (0 : ℚ) 40 10 100 Material.Copper
      false (4 / 5) = 21 / 25 := by
    norm_num [calculate_required_area, materials]
  have hrec : recommendCable (0 : ℚ) 10 100 40 Material.Copper false
      (4 / 5) = some (3 / 2) := by
    unfold recommendCable
    rw [harea]
    norm_num [cable_sizes_mm2, List.filter_cons, List.min?, min_def]
  have hmem : (3 / 2 : ℚ) ∈ (crossSections : List ℚ) := by
    norm_num [crossSections]
  have hkey : get_current_rating (3 / 2 : ℚ) 3 0 = none := by
    unfold get_current_rating
    rw [if_neg (not_not.mpr hmem)]
    have hlook : lookupAll (table_data_1 : List (String × List ℚ))
        installation_methods_keys = none := by
      simp [lookupAll, table_data_1, installation_methods_keys, List.lookup]
    rw [hlook]
  refine ⟨hrec, hmem, hkey, ?_⟩
  unfold chooseCable
  rw [if_neg (by norm_num)]
  rw [hrec]
  simp only [hkey]

/-- C10: the current-rating table only knows cross-sections up to 16 mm^2
while the size catalog extends to 240 mm^2; hence every Cable Chooser run
whose recommended size is at least 25 mm^2 gets the infinite sentinel as base
rating, an infinite adjusted rating, and can never raise the rating warning,
no matter how large the current is. -/
theorem C10_rating_unreachable_above_16 :
    (∀ x ∈ (crossSections : List ℚ), x ≤ 16) ∧
    ((240 : ℚ) ∈ (cable_sizes_mm2 : List ℚ) ∧
      ∀ x ∈ (cable_sizes_mm2 : List ℚ), x ≤ 240) ∧
    (∀ (sqrt3 current length vd pf : ℚ) (material : Material)
      (t n : ℕ) (idx : Fin 7) (b : Bool) (r : ChooserResult ℚ),
      chooseCable sqrt3 current length vd material t n idx b pf =
        Except.ok r →
      25 ≤ r.recommended_size →
      r.base_rating = ⊤ ∧ r.adjusted_rating = ⊤ ∧ r.warning = false) := by
  refine ⟨?_, ⟨?_, ?_⟩, ?_⟩
  · intro x hx
    fin_cases hx <;> norm_num
  · norm_num [cable_sizes_mm2]
  · intro x hx
    fin_cases hx <;> norm_num
  · intro sqrt3 current length vd pf material t n idx b r hr h25
    unfold chooseCable at hr
    by_cases h : current ≤ 0 ∨ length ≤ 0 ∨ vd ≤ 0
    · rw [if_pos h] at hr
      simp at hr
    · rw [if_neg h] at hr
      cases hmin : recommendCable sqrt3 current length vd material b pf with
      | none =>
        rw [hmin] at hr
        simp at hr
      | some m =>
        rw [hmin] at hr
        simp only [] at hr
        cases hgr : get_current_rating m n idx with
        | none =>
          rw [hgr] at hr
          simp at hr
        | some base =>
          rw [hgr] at hr
          simp only [Except.ok.injEq] at hr
          subst hr
          simp only [] at h25
          have hmem : m ∉ (crossSections : List ℚ) := by
            intro hm
            fin_cases hm <;> norm_num at h25
          have hb : get_current_rating m n idx =
              some (⊤ : WithTop ℚ) := by
            unfold get_current_rating
            rw [if_pos hmem]
          have hbase : base = (⊤ : WithTop ℚ) := by
            rw [hb] at hgr
            simpa using hgr.symm
          subst hbase
          refine ⟨rfl, ?_, ?_⟩ <;>
            simp [ratingWarning, WithTop.map_top, not_top_lt]

/-- Witness for C10: a concrete run (current 10 A, length 100 m, allowed drop
1.5 V, copper, single phase) whose required area is 22.4 mm^2 and recommended
size is 25 mm^2; its base and adjusted ratings are the infinite sentinel and
its warning flag is off. -/
theorem C10_rating_unreachable_above_16_witness :
    chooseCable (0 : ℚ) 10 100 (3 / 2) Material.Copper 30 3 0 false (4 / 5) =
      Except.ok ⟨10, 112 / 5, 25, 42 / 625, 84 / 125, ⊤, ⊤, false⟩ ∧
    (⟨10, 112 / 5, 25, 42 / 625, 84 / 125, ⊤, ⊤, false⟩ :
        ChooserResult ℚ).base_rating = ⊤ ∧
    (⟨10, 112 / 5, 25, 42 / 625, 84 / 125, ⊤, ⊤, false⟩ :
        ChooserResult ℚ).warning = false := by
  have hrun : chooseCable (0 : ℚ) 10 100 (3 / 2) Material.Copper 30 3 0 false
      (4 / 5) = Except.ok ⟨10, 112 / 5, 25, 42 / 625, 84 / 125, ⊤, ⊤,
        false⟩ := by
    have harea : calculate_required_area (0 : ℚ) (3 / 2) 10 100
        Material.Copper false (4 / 5) = 112 / 5 := by
      norm_num [calculate_required_area, materials]
    have hrec : recommendCable (0 : ℚ) 10 100 (3 / 2) Material.Copper false
        (4 / 5) = some 25 := by
      unfold recommendCable
      rw [harea]
      norm_num [cable_sizes_mm2, List.filter_cons, List.min?, min_def]
    unfold chooseCable
    rw [if_neg (by norm_num)]
    rw [hrec]
    have hmem : (25 : ℚ) ∉ (crossSections : List ℚ) := by
      norm_num [crossSections]
    have hb : get_current_rating (25 : ℚ) 3 0 = some (⊤ : WithTop ℚ) := by
      unfold get_current_rating
      rw [if_pos hmem]
    norm_num [harea, hb, calculate_resistance, calculate_voltage_drop,
      materials, temp_factors_80C, core_factors_open_air, ratingWarning,
      WithTop.map_top, not_top_lt]
  have h := (C10_rating_unreachable_above_16.2.2 0 10 100 (3 / 2) (4 / 5)
    Material.Copper 30 3 0 false _ hrun (by norm_num))
  exact ⟨hrun, h.1, h.2.2⟩
